import Mathlib

/-!
Shallow embedding of the rendology rendering core.

Source layout:
- `src/lib.rs` — `Resources`, `CreationError`, `Context`, `RenderList`
  (`add_instance`, `add`, `render`, `clear`).
- `src/pipeline/instance.rs` — the `InstanceParams` capability, the
  `UniformsPair` combinator, `DefaultInstanceParams`, and the
  `InstanceParams` impl for the pipeline `Context`.
- `src/pipeline/conduit.rs` — conduit/ribbon `Params` and its uniforms.
- `src/pipeline/light.rs` — `Light` and its uniforms.

The `object`, `camera` and `machine` modules referenced by `lib.rs` are not
part of the sources; where a claim depends on them they are modelled from
the spec (each such definition says so in its doc comment).

Scalars: the verified code paths only construct `f32` constants and copy
them into uniform bindings — no arithmetic is performed on them — so `f32`
is embedded as Lean's `Float` used purely as inert data.
-/

namespace Rendology

/-- `f32` scalars, used as inert data (constructed and copied, never
computed with) on all verified code paths. -/
abbrev F32 := Float

/-- `[[f32; 4]; 4]`, the matrix representation bound into uniforms
(`na::Matrix4<f32>` is converted into this form by `.into()`). -/
abbrev Mat4 := Fin 4 → Fin 4 → F32

/-- `[f32; 4]` (`na::Vector4<f32>` after `.into()`). -/
abbrev Vec4 := Fin 4 → F32

/-- `[f32; 3]` (`na::Vector3<f32>` / `na::Point3<f32>.coords` after
`.into()`). -/
abbrev Vec3 := Fin 3 → F32

/-- `na::Matrix4::identity()`: ones on the diagonal, zeros elsewhere
(semantics of the external `nalgebra` library function called by
`DefaultInstanceParams::default`). -/
def Mat4.identity : Mat4 := fun i j => if i = j then (1.0 : F32) else 0.0

/-- The typed uniform values bound by this program
(`glium::uniforms::UniformValue`, restricted to the variants the sources
construct: matrices, vectors, floats and booleans). -/
inductive UniformValue where
  | mat4 (m : Mat4)
  | vec4 (v : Vec4)
  | vec3 (v : Vec3)
  | float (x : F32)
  | bool (b : Bool)

/-- One named uniform binding, as passed to a `visit_values` visitor. -/
abbrev UniformEntry := String × UniformValue

/-- A value of some type implementing `glium::uniforms::Uniforms`, as the
sources build them: either a `uniform! { … }` block, whose generated
`visit_values` calls the visitor on its entries in the order written, or a
`UniformsPair(a, b)` (src/pipeline/instance.rs), whose `visit_values` first
visits all of `a`'s entries and then all of `b`'s. -/
inductive UniformsSource where
  | entries (l : List UniformEntry)
  | pair (a b : UniformsSource)

/-- `Uniforms::visit_values`: run a stateful visitor over the producer's
entries. `uniform! { … }` visits its entries left to right;
`UniformsPair` runs `self.0.visit_values` and then `self.1.visit_values`
(src/pipeline/instance.rs lines 19–28). -/
def UniformsSource.visitValues {σ : Type} (f : σ → String → UniformValue → σ) :
    UniformsSource → σ → σ
  | .entries l, s => l.foldl (fun acc e => f acc e.1 e.2) s
  | .pair a b, s => b.visitValues f (a.visitValues f s)

/-- A visitor that records every visited entry, in order. -/
def collectEntry (acc : List UniformEntry) (nm : String) (v : UniformValue) :
    List UniformEntry :=
  acc ++ [(nm, v)]

/-- The visitation sequence of a producer: the list of (name, value)
entries a recording visitor observes, in order. -/
def UniformsSource.trace (u : UniformsSource) : List UniformEntry :=
  u.visitValues collectEntry []

/-- The names a recording visitor observes, in order. -/
def UniformsSource.names (u : UniformsSource) : List String :=
  u.trace.map Prod.fst

/-- `UniformsPair` (src/pipeline/instance.rs line 17): wraps two producers;
its `Uniforms` impl forwards visitation to both in sequence. -/
def UniformsPair (a b : UniformsSource) : UniformsSource :=
  .pair a b

lemma foldl_collectEntry (l : List UniformEntry) (s : List UniformEntry) :
    l.foldl (fun acc e => collectEntry acc e.1 e.2) s = s ++ l := by
  induction l generalizing s with
  | nil => simp
  | cons e rest ih =>
      rw [List.foldl_cons, ih]
      simp [collectEntry]

lemma UniformsSource.visitValues_collectEntry (u : UniformsSource) :
    ∀ s : List UniformEntry, u.visitValues collectEntry s = s ++ u.trace := by
  induction u with
  | entries l =>
      intro s
      simp only [visitValues, trace, foldl_collectEntry]
      simp
  | pair a b iha ihb =>
      intro s
      have htr : (UniformsSource.pair a b).trace = a.trace ++ b.trace := by
        show b.visitValues collectEntry (a.visitValues collectEntry []) = _
        rw [iha, ihb]
        simp
      show b.visitValues collectEntry (a.visitValues collectEntry s) = _
      rw [iha, ihb, htr]
      simp

lemma UniformsSource.trace_pair (a b : UniformsSource) :
    (UniformsPair a b).trace = a.trace ++ b.trace := by
  show (UniformsSource.pair a b).trace = _
  show b.visitValues collectEntry (a.visitValues collectEntry []) = _
  rw [a.visitValues_collectEntry, b.visitValues_collectEntry]
  simp

namespace pipeline

/-- The pipeline `Camera` (referenced from src/pipeline/instance.rs as
`self.camera.view` / `self.camera.projection`): its two matrix fields,
already in uniform-binding form. -/
structure Camera where
  view : Mat4
  projection : Mat4

/-- The pipeline `Context` (src/pipeline/instance.rs lines 30–45 read
`camera`, `main_light_pos` and `elapsed_time_secs` from it). -/
structure Context where
  camera : Camera
  main_light_pos : Vec3
  elapsed_time_secs : F32

/-- `impl InstanceParams for Context` (src/pipeline/instance.rs lines
30–45): `uniform! { mat_view, mat_projection, light_pos, t }`. -/
def Context.uniforms (c : Context) : UniformsSource :=
  .entries
    [("mat_view", .mat4 c.camera.view),
     ("mat_projection", .mat4 c.camera.projection),
     ("light_pos", .vec3 c.main_light_pos),
     ("t", .float c.elapsed_time_secs)]

/-- `DefaultInstanceParams` (src/pipeline/instance.rs lines 47–51). -/
structure DefaultInstanceParams where
  transform : Mat4
  color : Vec4

/-- `impl Default for DefaultInstanceParams` (src/pipeline/instance.rs
lines 53–60): identity transform, color `(1.0, 1.0, 1.0, 1.0)`. -/
def DefaultInstanceParams.default : DefaultInstanceParams where
  transform := Mat4.identity
  color := ![1.0, 1.0, 1.0, 1.0]

/-- `impl InstanceParams for DefaultInstanceParams`
(src/pipeline/instance.rs lines 62–74):
`uniform! { mat_model, color }`. -/
def DefaultInstanceParams.uniforms (p : DefaultInstanceParams) : UniformsSource :=
  .entries
    [("mat_model", .mat4 p.transform),
     ("color", .vec4 p.color)]

namespace conduit

/-- Conduit/ribbon `Params` (src/pipeline/conduit.rs lines 9–16). -/
structure Params where
  transform : Mat4
  color : Vec4
  phase : F32
  start : F32
  «end» : F32

/-- `impl InstanceParams for Params` (src/pipeline/conduit.rs lines 30–45):
`uniform! { mat_model, color, phase, start, end }`. -/
def Params.uniforms (p : Params) : UniformsSource :=
  .entries
    [("mat_model", .mat4 p.transform),
     ("color", .vec4 p.color),
     ("phase", .float p.phase),
     ("start", .float p.start),
     ("end", .float p.«end»)]

end conduit

namespace light

/-- `Light` (src/pipeline/light.rs lines 8–13). -/
structure Light where
  position : Vec3
  attenuation : Vec3
  color : Vec3
  is_main : Bool

/-- `impl InstanceParams for Light` (src/pipeline/light.rs lines 15–30):
`uniform! { light_position, light_attenuation, light_color,
light_is_main }`. -/
def Light.uniforms (li : Light) : UniformsSource :=
  .entries
    [("light_position", .vec3 li.position),
     ("light_attenuation", .vec3 li.attenuation),
     ("light_color", .vec3 li.color),
     ("light_is_main", .bool li.is_main)]

end light

end pipeline

namespace object

/-- Modelled from the spec: the error of the missing `object` module's
`create_buffers` ("underlying GPU buffer allocation failure, propagated as
`CreationError::ObjectCreationError`", spec 4.1). Its payload is kept as
an inert token. -/
abbrev CreationError := Nat

/-- Modelled from the spec: the index specification of the missing
`object` module — "either an explicit index buffer or a 'draw without
indices' marker" (spec 3). `lib.rs` lines 177–196 match on exactly these
two variants. Buffer handles are kept as inert tokens. -/
inductive IndexBuffer where
  | IndexBuffer (buffer : Nat)
  | NoIndices (buffer : Nat)
deriving DecidableEq

/-- Modelled from the spec: `ObjectBuffers` of the missing `object`
module — "owns a vertex buffer and an index specification" (spec 3). -/
structure ObjectBuffers where
  vertex_buffer : Nat
  index_buffer : IndexBuffer
deriving DecidableEq

end object

/-- Modelled from the spec: the missing `object` module's `Object` enum is
"a finite enumerable tag", its values "used as dense array indices (no
gaps)" over `0 .. NumTypes` (spec 3); `lib.rs` lines 45–47 convert each
`i` in that range with `from_u32(i).unwrap()` and line 113 converts back
with `to_usize().unwrap()`. It is embedded as `Fin numTypes` with the
numeric conversions the identity on the underlying value. -/
abbrev Object (numTypes : Nat) := Fin numTypes

/-- `Object::to_usize().unwrap()` (dense numeric value of the kind). -/
def Object.to_usize {n : Nat} (o : Object n) : Nat := o.val

/-- The compiled `glium::Program` handle (contents irrelevant to the
claims; the program is shared across all draws). -/
abbrev Program := Nat

/-- `glium::program::ProgramChooserCreationError` (inert token). -/
abbrev ProgramChooserCreationError := Nat

/-- `glium::DrawError` (inert token). -/
abbrev DrawError := Nat

/-- `CreationError` (src/lib.rs lines 19–23), with the two `From` impls
(lines 25–35) doing the wrapping. -/
inductive CreationError where
  | ObjectCreationError (err : object.CreationError)
  | ProgramChooserCreationError (err : ProgramChooserCreationError)
deriving DecidableEq

/-- The graphics backend a `Resources::create` call talks to
(`glium::backend::Facade`): what `Object::create_buffers(facade)` returns
for each kind (modelled from the spec, 4.1, as the `object` module is not
in the sources), and what the `program!` macro invocation (src/lib.rs
lines 52–102) returns. -/
structure Facade (n : Nat) where
  create_buffers : Object n → Except object.CreationError object.ObjectBuffers
  compile_program : Except ProgramChooserCreationError Program

/-- `Resources` (src/lib.rs lines 14–17). -/
structure Resources (n : Nat) where
  object_buffers : List object.ObjectBuffers
  program : Program
deriving DecidableEq

/-- The buffer-creation loop of `Resources::create` (src/lib.rs lines
43–50): for each kind in range, in order, create its buffers and push
them, propagating the first error with `?`. -/
def createBuffersLoop {n : Nat} (facade : Facade n) :
    List (Object n) → Except object.CreationError (List object.ObjectBuffers)
  | [] => .ok []
  | o :: os => do
    let b ← facade.create_buffers o
    let bs ← createBuffersLoop facade os
    .ok (b :: bs)

/-- `Resources::create` (src/lib.rs lines 37–108): build the buffers for
every kind `0 .. NumTypes`, then compile the program, wrapping each error
through the `From` impls; on success return the assembled `Resources`. -/
def Resources.create {n : Nat} (facade : Facade n) :
    Except CreationError (Resources n) := do
  let object_buffers ←
    (createBuffersLoop facade (List.finRange n)).mapError
      CreationError.ObjectCreationError
  let program ←
    facade.compile_program.mapError CreationError.ProgramChooserCreationError
  .ok { object_buffers := object_buffers, program := program }

/-- `Resources::get_object_buffers` (src/lib.rs lines 110–114): index the
dense buffer array by the kind's numeric value; `none` models the panic of
an out-of-range index (which the code comments rule out by invariant). -/
def Resources.get_object_buffers {n : Nat} (r : Resources n) (o : Object n) :
    Option object.ObjectBuffers :=
  r.object_buffers.get? o.to_usize

/-- The `camera` module is not in the sources; `lib.rs` lines 149–150 call
`context.camera.projection()` and `context.camera.view()` for the two
matrices. Modelled from the spec ("camera (view+projection)", spec 3) as
the two matrix-valued accessors. -/
structure Camera where
  view : Mat4
  projection : Mat4

/-- `Context` (src/lib.rs lines 117–120). -/
structure Context where
  camera : Camera
  elapsed_time_secs : F32

/-- The `InstanceParams` value re-exported from the missing `object`
module: `lib.rs` lines 167–168 read `params.transform` (a matrix) and
`params.color` (a 4-vector) from it; modelled from the spec ("default
transform+color", spec 3). -/
structure InstanceParams where
  transform : Mat4
  color : Vec4

/-- `Instance` re-exported from the missing `object` module: `lib.rs`
lines 136–137 and 164–168 use its `object` and `params` fields
("(ObjectKind, InstanceParams value)", spec 3). -/
structure Instance (n : Nat) where
  object : Object n
  params : InstanceParams

/-- `glium::draw_parameters::BackfaceCullingMode`. -/
inductive BackfaceCullingMode where
  | CullingDisabled
  | CullCounterClockwise
  | CullClockwise
deriving DecidableEq

/-- `glium::DepthTest` (the variants this embedding distinguishes:
`Overwrite` is `glium::Depth`'s default test, `IfLess` is the one the
source selects). -/
inductive DepthTest where
  | Overwrite
  | IfLess
deriving DecidableEq

/-- `glium::Depth`, restricted to the fields `render` sets; the remaining
fields keep their library defaults and are never consulted. -/
structure Depth where
  test : DepthTest
  write : Bool
deriving DecidableEq

/-- `glium::DrawParameters`, restricted to the fields `render` sets; the
remaining fields keep their library defaults and are never consulted. -/
structure DrawParameters where
  backface_culling : BackfaceCullingMode
  depth : Depth
deriving DecidableEq

/-- The `DrawParameters` value built once per `render` call (src/lib.rs
lines 152–160): clockwise backface culling, depth test `IfLess`, depth
write on. -/
def renderDrawParameters : DrawParameters where
  backface_culling := .CullClockwise
  depth := { test := .IfLess, write := true }

/-- One call to `Surface::draw` as `render` issues it (src/lib.rs lines
177–196): the bound buffers, the shared program, the uniform entries of
the `uniform!` block, and the draw parameters. -/
structure DrawCall where
  vertex_buffer : Nat
  index : object.IndexBuffer
  program : Program
  uniforms : List UniformEntry
  params : DrawParameters

/-- The target `glium::Surface`: the outcome of the `k`-th `draw` call of
a frame, given the call's content (`none` = the draw succeeded, `some e` =
it failed with `glium::DrawError` `e`). -/
def Surface := Nat → DrawCall → Option DrawError

/-- Outcome of `RenderList::render`: `Ok(())`, `Err(DrawError)`, or the
panic of an out-of-range buffer index (ruled out by the startup
invariant). -/
inductive RenderResult where
  | ok
  | err (e : DrawError)
  | panicked
deriving DecidableEq

/-- The draw call `render` issues for one instance (src/lib.rs lines
164–196): the resolved buffers, the shared program, the inline
`uniform! { mat_model, mat_view, mat_projection, color, t }` block (lines
169–175), and the fixed draw parameters. -/
def renderCall {n : Nat} (program : Program) (pp : DrawParameters)
    (mat_view mat_projection : Mat4) (t : F32)
    (buffers : object.ObjectBuffers) (inst : Instance n) : DrawCall where
  vertex_buffer := buffers.vertex_buffer
  index := buffers.index_buffer
  program := program
  uniforms :=
    [("mat_model", .mat4 inst.params.transform),
     ("mat_view", .mat4 mat_view),
     ("mat_projection", .mat4 mat_projection),
     ("color", .vec4 inst.params.color),
     ("t", .float t)]
  params := pp

/-- The instance loop of `render` (src/lib.rs lines 164–197): for each
instance in order, resolve its buffers by kind, build the uniforms, issue
one `draw` (both `match` arms of lines 177–196 pass the same program,
uniforms and parameters; only the index specification differs, recorded in
the call), and abort on the first failing draw via `?`. `k` counts the
draw calls already issued. The returned list is every call passed to
`Surface::draw`, in order (including a failing one). -/
def renderLoop {n : Nat} (r : Resources n) (pp : DrawParameters)
    (mat_view mat_projection : Mat4) (t : F32) (S : Surface) :
    Nat → List (Instance n) → List DrawCall × RenderResult
  | _, [] => ([], .ok)
  | k, inst :: rest =>
    match r.object_buffers.get? inst.object.to_usize with
    | none => ([], .panicked)
    | some buffers =>
      let call := renderCall r.program pp mat_view mat_projection t buffers inst
      match S k call with
      | some e => ([call], .err e)
      | none =>
        let rest_result := renderLoop r pp mat_view mat_projection t S (k + 1) rest
        (call :: rest_result.1, rest_result.2)

/-- `RenderList` (src/lib.rs lines 122–125). -/
structure RenderList (n : Nat) where
  instances : List (Instance n)

/-- `RenderList::new()` (src/lib.rs lines 128–130): the default, empty
list. -/
def RenderList.new (n : Nat) : RenderList n where
  instances := []

/-- `RenderList::add_instance` (src/lib.rs lines 132–134): push a clone of
the instance (cloning is the identity on pure values). -/
def RenderList.add_instance {n : Nat} (l : RenderList n) (inst : Instance n) :
    RenderList n where
  instances := l.instances ++ [inst]

/-- `RenderList::add` (src/lib.rs lines 136–138): build the instance from
kind and cloned params, then `add_instance`. -/
def RenderList.add {n : Nat} (l : RenderList n) (o : Object n)
    (params : InstanceParams) : RenderList n :=
  l.add_instance { object := o, params := params }

/-- `RenderList::render` (src/lib.rs lines 140–200): hoist the view and
projection matrices and the fixed draw parameters, then run the instance
loop against the target surface. Returns the sequence of issued draw calls
together with the call's result. -/
def RenderList.render {n : Nat} (l : RenderList n) (resources : Resources n)
    (context : Context) (target : Surface) : List DrawCall × RenderResult :=
  renderLoop resources renderDrawParameters context.camera.view
    context.camera.projection context.elapsed_time_secs target 0 l.instances

/-- `RenderList::clear` (src/lib.rs lines 202–204). -/
def RenderList.clear {n : Nat} (_l : RenderList n) : RenderList n where
  instances := []

/-- Fallback buffers for stating total lookups (never the value actually
read when the index is in range). -/
def fallbackBuffers : object.ObjectBuffers where
  vertex_buffer := 0
  index_buffer := .NoIndices 0

/-- The draw call `render` issues for a given instance, described from the
outside: buffers resolved from the dense array at the kind's numeric
value, shared program, hoisted camera matrices and elapsed time, fixed
draw parameters. -/
def expectedCall {n : Nat} (r : Resources n) (c : Context) (inst : Instance n) :
    DrawCall :=
  renderCall r.program renderDrawParameters c.camera.view c.camera.projection
    c.elapsed_time_secs (r.object_buffers.getD inst.object.to_usize fallbackBuffers)
    inst

lemma get?_eq_some_getD {α : Type} (l : List α) (i : Nat) (d : α)
    (h : i < l.length) : l.get? i = some (l.getD i d) := by
  rw [List.getD_eq_getElem?_getD, List.get?_eq_getElem?, List.getElem?_eq_getElem h]
  rfl

lemma renderLoop_all_ok {n : Nat} (r : Resources n) (mv mp : Mat4) (t : F32)
    (S : Surface) (hS : ∀ k c, S k c = none) :
    ∀ (insts : List (Instance n)) (k : Nat),
      (∀ inst ∈ insts, inst.object.to_usize < r.object_buffers.length) →
      renderLoop r renderDrawParameters mv mp t S k insts
        = (insts.map (fun inst =>
            renderCall r.program renderDrawParameters mv mp t
              (r.object_buffers.getD inst.object.to_usize fallbackBuffers) inst),
           .ok) := by
  intro insts
  induction insts with
  | nil => intro k _; rfl
  | cons inst rest ih =>
      intro k hmem
      have hlt : inst.object.to_usize < r.object_buffers.length :=
        hmem inst (List.mem_cons_self inst rest)
      have hget := get?_eq_some_getD r.object_buffers inst.object.to_usize
        fallbackBuffers hlt
      have hrest := ih (k + 1) (fun i hi => hmem i (List.mem_cons_of_mem inst hi))
      simp only [renderLoop, hget, hS, hrest]
      simp [List.map]

lemma renderLoop_first_error {n : Nat} (r : Resources n) (mv mp : Mat4)
    (t : F32) (S : Surface) (bad : Instance n) (post : List (Instance n))
    (e : DrawError) :
    ∀ (pre : List (Instance n)) (k : Nat),
      (∀ inst ∈ pre ++ [bad], inst.object.to_usize < r.object_buffers.length) →
      (∀ j, j < pre.length → ∀ c, S (k + j) c = none) →
      (∀ c, S (k + pre.length) c = some e) →
      renderLoop r renderDrawParameters mv mp t S k (pre ++ bad :: post)
        = ((pre ++ [bad]).map (fun inst =>
            renderCall r.program renderDrawParameters mv mp t
              (r.object_buffers.getD inst.object.to_usize fallbackBuffers) inst),
           .err e) := by
  intro pre
  induction pre with
  | nil =>
      intro k hmem _ herr
      have hlt : bad.object.to_usize < r.object_buffers.length :=
        hmem bad (by simp)
      have hget := get?_eq_some_getD r.object_buffers bad.object.to_usize
        fallbackBuffers hlt
      have hbad := herr (renderCall r.program renderDrawParameters mv mp t
        (r.object_buffers.getD bad.object.to_usize fallbackBuffers) bad)
      simp only [List.nil_append, List.length_nil, Nat.add_zero] at hbad ⊢
      simp only [renderLoop, hget, hbad]
      simp
  | cons inst rest ih =>
      intro k hmem hok herr
      have hlt : inst.object.to_usize < r.object_buffers.length :=
        hmem inst (by simp)
      have hget := get?_eq_some_getD r.object_buffers inst.object.to_usize
        fallbackBuffers hlt
      have hthis : ∀ c, S k c = none := by
        intro c
        have := hok 0 (by simp) c
        simpa using this
      have hrest := ih (k + 1)
        (fun i hi => hmem i (by simpa using Or.inr (by simpa using hi)))
        (fun j hj c => by
          have := hok (j + 1) (by simpa using Nat.succ_lt_succ hj) c
          simpa [Nat.add_assoc, Nat.add_comm 1 j] using this)
        (fun c => by
          have := herr c
          simpa [Nat.add_assoc, Nat.add_comm 1 rest.length] using this)
      have hstep : renderLoop r renderDrawParameters mv mp t S k
          ((inst :: rest) ++ bad :: post)
          = (renderCall r.program renderDrawParameters mv mp t
               (r.object_buffers.getD inst.object.to_usize fallbackBuffers) inst
             :: (renderLoop r renderDrawParameters mv mp t S (k + 1)
                  (rest ++ bad :: post)).1,
             (renderLoop r renderDrawParameters mv mp t S (k + 1)
                  (rest ++ bad :: post)).2) := by
        simp only [List.cons_append, renderLoop, hget, hthis, List.append_eq]
      rw [hstep, hrest]
      simp

lemma createBuffersLoop_first_error {n : Nat} (facade : Facade n)
    (j : Object n) (post : List (Object n)) (e : object.CreationError) :
    ∀ pre : List (Object n),
      (∀ o ∈ pre, ∃ b, facade.create_buffers o = .ok b) →
      facade.create_buffers j = .error e →
      createBuffersLoop facade (pre ++ j :: post) = .error e := by
  intro pre
  induction pre with
  | nil =>
      intro _ hj
      simp [createBuffersLoop, hj, Bind.bind, Except.bind]
  | cons o rest ih =>
      intro hok hj
      obtain ⟨b, hb⟩ := hok o (by simp)
      have := ih (fun o' ho' => hok o' (by simp [ho'])) hj
      simp [createBuffersLoop, hb, this, Bind.bind, Except.bind]

lemma createBuffersLoop_ok_pointwise {n : Nat} (facade : Facade n) :
    ∀ (l : List (Object n)) (bs : List object.ObjectBuffers),
      createBuffersLoop facade l = .ok bs →
      bs.length = l.length ∧
      ∀ (i : Nat) (hi : i < l.length), ∃ b,
        facade.create_buffers (l.get ⟨i, hi⟩) = .ok b ∧ bs.get? i = some b := by
  intro l
  induction l with
  | nil =>
      intro bs h
      simp only [createBuffersLoop] at h
      cases h
      exact ⟨rfl, fun i hi => absurd hi (by simp)⟩
  | cons o rest ih =>
      intro bs h
      simp only [createBuffersLoop, Bind.bind, Except.bind] at h
      cases hb : facade.create_buffers o with
      | error e => rw [hb] at h; cases h
      | ok b =>
          rw [hb] at h
          cases hrest : createBuffersLoop facade rest with
          | error e => rw [hrest] at h; cases h
          | ok bs' =>
              rw [hrest] at h
              cases h
              obtain ⟨hlen, hpt⟩ := ih bs' hrest
              refine ⟨by simp [hlen], ?_⟩
              intro i hi
              cases i with
              | zero => exact ⟨b, hb, rfl⟩
              | succ i' =>
                  have hi' : i' < rest.length := by
                    simp only [List.length_cons] at hi
                    omega
                  obtain ⟨b', hb', hget⟩ := hpt i' hi'
                  exact ⟨b', hb', by simpa using hget⟩

lemma UniformsSource.trace_entries (l : List UniformEntry) :
    (UniformsSource.entries l).trace = l := by
  show l.foldl (fun acc e => collectEntry acc e.1 e.2) [] = l
  rw [foldl_collectEntry]
  simp

lemma UniformsSource.names_entries (l : List UniformEntry) :
    (UniformsSource.entries l).names = l.map Prod.fst := by
  simp [UniformsSource.names, UniformsSource.trace_entries]

lemma createBuffersLoop_ok_of_all {n : Nat} (facade : Facade n) :
    ∀ l : List (Object n),
      (∀ o ∈ l, ∃ b, facade.create_buffers o = .ok b) →
      ∃ bs, createBuffersLoop facade l = .ok bs := by
  intro l
  induction l with
  | nil => intro _; exact ⟨[], rfl⟩
  | cons o rest ih =>
      intro hok
      obtain ⟨b, hb⟩ := hok o (by simp)
      obtain ⟨bs, hbs⟩ := ih (fun o' ho' => hok o' (by simp [ho']))
      exact ⟨b :: bs, by simp [createBuffersLoop, hb, hbs, Bind.bind, Except.bind]⟩

/-- One operation of the per-frame `RenderList` API, for observing how each
call affects the list and the log of issued draw sequences. -/
inductive FrameOp (n : Nat) where
  | add_instance (inst : Instance n)
  | clear
  | render (r : Resources n) (c : Context) (S : Surface)

/-- Effect of one API call on (list, log of issued draw sequences).
`add_instance` and `clear` mutate the list through `&mut self`;
`render` takes the list by shared reference (`fn render(&self, …)`,
src/lib.rs lines 140–145) and only reads `self.instances`, so the list
component is unchanged and the issued calls are appended to the log. -/
def FrameOp.step {n : Nat} :
    FrameOp n → RenderList n × List (List DrawCall) →
      RenderList n × List (List DrawCall)
  | .add_instance inst, (l, log) => (l.add_instance inst, log)
  | .clear, (l, log) => (l.clear, log)
  | .render r c S, (l, log) => (l, log ++ [(l.render r c S).1])

/-! Concrete values used by the closed witness and counterexample
theorems. -/

def wObjectBuffers : object.ObjectBuffers where
  vertex_buffer := 10
  index_buffer := .IndexBuffer 11

def wResources : Resources 1 where
  object_buffers := [wObjectBuffers]
  program := 42

def wContext : Context where
  camera := { view := Mat4.identity, projection := Mat4.identity }
  elapsed_time_secs := 0.0

def wInstanceA : Instance 1 where
  object := ⟨0, Nat.zero_lt_one⟩
  params := { transform := Mat4.identity, color := ![1.0, 0.0, 0.0, 1.0] }

def wInstanceB : Instance 1 where
  object := ⟨0, Nat.zero_lt_one⟩
  params := { transform := Mat4.identity, color := ![1.0, 1.0, 1.0, 1.0] }

def wSurfaceOk : Surface := fun _ _ => none

def wSurfaceFail1 : Surface := fun k _ => if k = 1 then some 7 else none

def wPipelineContext : pipeline.Context where
  camera := { view := Mat4.identity, projection := Mat4.identity }
  main_light_pos := ![0.0, 0.0, 0.0]
  elapsed_time_secs := 0.0

def wFacadeBufFail : Facade 2 where
  create_buffers := fun o => if o.val = 0 then .ok wObjectBuffers else .error 5
  compile_program := .ok 42

def wFacadeProgFail : Facade 1 where
  create_buffers := fun _ => .ok wObjectBuffers
  compile_program := .error 9

def wFacadeOk : Facade 2 where
  create_buffers := fun o =>
    .ok { vertex_buffer := o.val, index_buffer := .NoIndices o.val }
  compile_program := .ok 42

def wCreatedResources : Resources 2 where
  object_buffers :=
    [{ vertex_buffer := 0, index_buffer := .NoIndices 0 },
     { vertex_buffer := 1, index_buffer := .NoIndices 1 }]
  program := 42

/-- Claim C1: a successful `render` over a `RenderList` of N instances
issues exactly N draw calls, one per instance in insertion order, each
resolving its buffers from the instance's object kind, against the shared
compiled program, and each with the fixed pipeline state (clockwise
backface culling, depth test IfLess, depth write on); no sorting or
batching is performed. -/
theorem render_issues_one_draw_per_instance {n : Nat} (l : RenderList n)
    (r : Resources n) (c : Context) (S : Surface)
    (hn : n ≤ r.object_buffers.length) (hS : ∀ k call, S k call = none) :
    (l.render r c S).1 = l.instances.map (expectedCall r c)
    ∧ (l.render r c S).2 = .ok
    ∧ (l.render r c S).1.length = l.instances.length
    ∧ ∀ call ∈ (l.render r c S).1,
        call.params = renderDrawParameters ∧ call.program = r.program := by
  have h := renderLoop_all_ok r c.camera.view c.camera.projection
    c.elapsed_time_secs S hS l.instances 0
    (fun inst _ => lt_of_lt_of_le inst.object.isLt hn)
  have hr : l.render r c S = (l.instances.map (expectedCall r c), .ok) := h
  rw [hr]
  refine ⟨rfl, rfl, by simp, ?_⟩
  intro call hcall
  simp only [List.mem_map] at hcall
  obtain ⟨inst, _, rfl⟩ := hcall
  exact ⟨rfl, rfl⟩

theorem render_issues_one_draw_per_instance_witness :
    ((RenderList.mk [wInstanceA, wInstanceB]).render wResources wContext
        wSurfaceOk).2 = .ok
    ∧ ((RenderList.mk [wInstanceA, wInstanceB]).render wResources wContext
        wSurfaceOk).1.length = 2 := by
  have h := render_issues_one_draw_per_instance
    (RenderList.mk [wInstanceA, wInstanceB]) wResources wContext wSurfaceOk
    (by decide) (fun k call => rfl)
  exact ⟨h.2.1, by rw [h.2.2.1]; rfl⟩

/-- Claim C2: `UniformsPair(A, B)` visits exactly A's entries followed by
B's entries, in each producer's own order, with no deduplication: its
visitation sequence is the concatenation of A's sequence and B's
sequence. -/
theorem uniforms_pair_visits_concatenation (a b : UniformsSource) :
    (UniformsPair a b).trace = a.trace ++ b.trace
    ∧ (UniformsPair a b).names = a.names ++ b.names := by
  refine ⟨UniformsSource.trace_pair a b, ?_⟩
  simp [UniformsSource.names, UniformsSource.trace_pair a b]

/-- Claim C3 (counterexample): at a concrete context and instance, the
uniform set `render` binds for a draw call is not the pairing of the
`Context`'s uniform producer with the instance params' uniform producer:
`render` binds the five names `mat_model, mat_view, mat_projection,
color, t` inline, while the pairing would visit the six names `mat_view,
mat_projection, light_pos, t, mat_model, color`. -/
theorem render_uniforms_pairing_counterexample :
    ¬ ((expectedCall wResources wContext wInstanceA).uniforms.map Prod.fst
        = (UniformsPair wPipelineContext.uniforms
            pipeline.DefaultInstanceParams.default.uniforms).names) := by
  decide

/-- Claim C3 (amended): `render` builds each draw call's uniform set
inline — exactly `mat_model` and `color` from the instance's params and
`mat_view`, `mat_projection` and `t` from the `Context`, in that fixed
order — rather than by pairing `context.uniforms()` with
`instance.params.uniforms()`; the pairing (defined in the pipeline module,
whose `Context` does implement the `InstanceParams` capability) would
instead visit `mat_view, mat_projection, light_pos, t, mat_model, color`,
a different uniform sequence. -/
theorem render_uniforms_inline_not_paired {n : Nat} :
    (∀ (prog : Program) (pp : DrawParameters) (mv mp : Mat4) (t : F32)
        (buffers : object.ObjectBuffers) (inst : Instance n),
        (renderCall prog pp mv mp t buffers inst).uniforms
          = [("mat_model", .mat4 inst.params.transform),
             ("mat_view", .mat4 mv),
             ("mat_projection", .mat4 mp),
             ("color", .vec4 inst.params.color),
             ("t", .float t)])
    ∧ (∀ (c : pipeline.Context) (p : pipeline.DefaultInstanceParams),
        (UniformsPair c.uniforms p.uniforms).names
          = ["mat_view", "mat_projection", "light_pos", "t",
             "mat_model", "color"])
    ∧ (∀ (prog : Program) (pp : DrawParameters) (mv mp : Mat4) (t : F32)
        (buffers : object.ObjectBuffers) (inst : Instance n)
        (c : pipeline.Context) (p : pipeline.DefaultInstanceParams),
        (renderCall prog pp mv mp t buffers inst).uniforms.map Prod.fst
          ≠ (UniformsPair c.uniforms p.uniforms).names) := by
  have hpair : ∀ (c : pipeline.Context) (p : pipeline.DefaultInstanceParams),
      (UniformsPair c.uniforms p.uniforms).names
        = ["mat_view", "mat_projection", "light_pos", "t",
           "mat_model", "color"] := by
    intro c p
    simp [UniformsSource.names, UniformsSource.trace_pair,
      pipeline.Context.uniforms, pipeline.DefaultInstanceParams.uniforms,
      UniformsSource.trace_entries]
  refine ⟨fun _ _ _ _ _ _ _ => rfl, hpair, ?_⟩
  intro prog pp mv mp t buffers inst c p h
  rw [hpair c p] at h
  have hlen := congrArg List.length h
  simp [renderCall] at hlen

theorem render_uniforms_inline_not_paired_witness :
    (renderCall wResources.program renderDrawParameters wContext.camera.view
        wContext.camera.projection wContext.elapsed_time_secs wObjectBuffers
        wInstanceA).uniforms.map Prod.fst
      ≠ (UniformsPair wPipelineContext.uniforms
          pipeline.DefaultInstanceParams.default.uniforms).names :=
  (render_uniforms_inline_not_paired (n := 1)).2.2 wResources.program
    renderDrawParameters wContext.camera.view wContext.camera.projection
    wContext.elapsed_time_secs wObjectBuffers wInstanceA wPipelineContext
    pipeline.DefaultInstanceParams.default

/-- Claim C4: if a draw call fails mid-list, the remaining instances are
not drawn and `render` returns the failure as a `DrawError`; the calls
issued before (and including) the failing one were already passed to the
surface, so a partially drawn frame is possible. -/
theorem render_aborts_after_failed_draw {n : Nat} (l : RenderList n)
    (r : Resources n) (c : Context) (S : Surface) (pre : List (Instance n))
    (bad : Instance n) (post : List (Instance n)) (e : DrawError)
    (hsplit : l.instances = pre ++ bad :: post)
    (hn : n ≤ r.object_buffers.length)
    (hok : ∀ j, j < pre.length → ∀ call, S j call = none)
    (herr : ∀ call, S pre.length call = some e) :
    (l.render r c S).1 = (pre ++ [bad]).map (expectedCall r c)
    ∧ (l.render r c S).2 = .err e
    ∧ (l.render r c S).1.length = pre.length + 1 := by
  have h := renderLoop_first_error r c.camera.view c.camera.projection
    c.elapsed_time_secs S bad post e pre 0
    (fun inst _ => lt_of_lt_of_le inst.object.isLt hn)
    (fun j hj call => by simpa using hok j hj call)
    (fun call => by simpa using herr call)
  have hr : l.render r c S = ((pre ++ [bad]).map (expectedCall r c), .err e) := by
    show renderLoop r renderDrawParameters c.camera.view c.camera.projection
      c.elapsed_time_secs S 0 l.instances = _
    rw [hsplit]
    exact h
  rw [hr]
  exact ⟨rfl, rfl, by simp⟩

theorem render_aborts_after_failed_draw_witness :
    ((RenderList.mk [wInstanceA, wInstanceB, wInstanceA]).render wResources
        wContext wSurfaceFail1).2 = .err 7
    ∧ ((RenderList.mk [wInstanceA, wInstanceB, wInstanceA]).render wResources
        wContext wSurfaceFail1).1.length = 2 := by
  have h := render_aborts_after_failed_draw
    (RenderList.mk [wInstanceA, wInstanceB, wInstanceA]) wResources wContext
    wSurfaceFail1 [wInstanceA] wInstanceB [wInstanceA] 7 rfl (by decide)
    (fun j hj call => by
      have hj0 : j = 0 := Nat.lt_one_iff.mp hj
      subst hj0
      rfl)
    (fun call => rfl)
  exact ⟨h.2.1, h.2.2⟩

/-- Claim C5: `Resources::create` builds all object buffers and compiles
the program once, and on any failure returns the first error encountered —
a buffer failure wrapped as `CreationError::ObjectCreationError`, a
compile/link failure wrapped as `CreationError::ProgramChooserCreationError`
— and, being an `Except`, never returns a partial `Resources` alongside an
error. -/
theorem resources_create_returns_first_error {n : Nat} (facade : Facade n) :
    (∀ (pre post : List (Object n)) (j : Object n)
        (e : object.CreationError),
        List.finRange n = pre ++ j :: post →
        (∀ o ∈ pre, ∃ b, facade.create_buffers o = .ok b) →
        facade.create_buffers j = .error e →
        Resources.create facade = .error (.ObjectCreationError e))
    ∧ (∀ e : ProgramChooserCreationError,
        (∀ o : Object n, ∃ b, facade.create_buffers o = .ok b) →
        facade.compile_program = .error e →
        Resources.create facade = .error (.ProgramChooserCreationError e)) := by
  constructor
  · intro pre post j e hsplit hok hj
    have hloop := createBuffersLoop_first_error facade j post e pre hok hj
    rw [Resources.create, hsplit, hloop]
    rfl
  · intro e hall hprog
    obtain ⟨bs, hbs⟩ :=
      createBuffersLoop_ok_of_all facade (List.finRange n) (fun o _ => hall o)
    rw [Resources.create, hbs, hprog]
    rfl

theorem resources_create_returns_first_error_witness :
    Resources.create wFacadeBufFail = .error (.ObjectCreationError 5)
    ∧ Resources.create wFacadeProgFail = .error (.ProgramChooserCreationError 9) := by
  constructor
  · exact (resources_create_returns_first_error wFacadeBufFail).1
      [⟨0, by decide⟩] [] ⟨1, by decide⟩ 5 (by decide)
      (by
        intro o ho
        simp at ho
        subst ho
        exact ⟨wObjectBuffers, rfl⟩)
      rfl
  · exact (resources_create_returns_first_error wFacadeProgFail).2 9
      (fun o => ⟨wObjectBuffers, rfl⟩) rfl

/-- Claim C6: after a successful `Resources::create`, every object kind in
`0 .. NumTypes` has exactly one buffer set, stored at the dense array
index equal to the kind's numeric value with no gaps (the array length is
exactly `NumTypes`), and `get_object_buffers` returns that buffer set for
every valid kind. -/
theorem create_populates_all_kinds_densely {n : Nat} (facade : Facade n)
    (r : Resources n) (h : Resources.create facade = .ok r) :
    r.object_buffers.length = n
    ∧ ∀ o : Object n, ∃ b,
        facade.create_buffers o = .ok b
        ∧ r.object_buffers.get? o.to_usize = some b
        ∧ r.get_object_buffers o = some b := by
  cases hbs : createBuffersLoop facade (List.finRange n) with
  | error e =>
      rw [Resources.create, hbs] at h
      cases h
  | ok bs =>
      cases hp : facade.compile_program with
      | error e =>
          rw [Resources.create, hbs, hp] at h
          cases h
      | ok p =>
          rw [Resources.create, hbs, hp] at h
          have hr : r = { object_buffers := bs, program := p } := by
            cases h
            rfl
          obtain ⟨hlen, hpt⟩ :=
            createBuffersLoop_ok_pointwise facade (List.finRange n) bs hbs
          subst hr
          refine ⟨by simp [hlen, List.length_finRange], ?_⟩
          intro o
          have ho : o.to_usize < (List.finRange n).length := by
            rw [List.length_finRange]
            exact o.isLt
          obtain ⟨b, hb, hget⟩ := hpt o.to_usize ho
          have hfin : (List.finRange n).get ⟨o.to_usize, ho⟩ = o := by
            rw [List.get_finRange]
            exact Fin.ext rfl
          rw [hfin] at hb
          exact ⟨b, hb, hget, hget⟩

theorem create_populates_all_kinds_densely_witness :
    Resources.create wFacadeOk = .ok wCreatedResources
    ∧ wCreatedResources.object_buffers.length = 2 := by
  have hcreate : Resources.create wFacadeOk = .ok wCreatedResources := by rfl
  have h := create_populates_all_kinds_densely wFacadeOk wCreatedResources hcreate
  exact ⟨hcreate, h.1⟩

/-- Claim C7: the uniform names bound for a default-pipeline instance draw
are exactly `mat_model, mat_view, mat_projection, color, t`; the
conduit/ribbon params' producer binds `phase, start, end` in addition to
`mat_model, color`; the light params' producer binds `light_position,
light_attenuation, light_color, light_is_main`. -/
theorem program_uniform_name_vocabulary {n : Nat} :
    (∀ (prog : Program) (pp : DrawParameters) (mv mp : Mat4) (t : F32)
        (buffers : object.ObjectBuffers) (inst : Instance n),
        (renderCall prog pp mv mp t buffers inst).uniforms.map Prod.fst
          = ["mat_model", "mat_view", "mat_projection", "color", "t"])
    ∧ (∀ p : pipeline.conduit.Params,
        p.uniforms.names
          = ["mat_model", "color", "phase", "start", "end"])
    ∧ (∀ li : pipeline.light.Light,
        li.uniforms.names
          = ["light_position", "light_attenuation", "light_color",
             "light_is_main"]) := by
  refine ⟨fun _ _ _ _ _ _ _ => rfl, fun p => ?_, fun li => ?_⟩
  · simp [pipeline.conduit.Params.uniforms, UniformsSource.names_entries]
  · simp [pipeline.light.Light.uniforms, UniformsSource.names_entries]

/-- Claim C8: any number of `add`/`add_instance` calls followed by `clear`
leaves the list empty, and rendering the emptied list issues zero draw
calls and returns Ok. -/
theorem add_clear_render_empty {n : Nat} (l : RenderList n)
    (adds : List (Object n × InstanceParams)) (insts : List (Instance n))
    (r : Resources n) (c : Context) (S : Surface) :
    ((adds.foldl (fun acc oi => acc.add oi.1 oi.2) l).clear).instances = []
    ∧ ((insts.foldl (fun acc i => acc.add_instance i) l).clear).instances = []
    ∧ (RenderList.clear l).render r c S = ([], .ok) := by
  exact ⟨rfl, rfl, rfl⟩

/-- Claim C9: `DefaultInstanceParams::default()` is the identity transform
with opaque white color: every diagonal entry of the transform is 1.0 and
every off-diagonal entry 0.0, and the color is `(1.0, 1.0, 1.0, 1.0)`. -/
theorem default_instance_params_identity_white :
    (∀ i j : Fin 4, pipeline.DefaultInstanceParams.default.transform i j
        = if i = j then (1.0 : F32) else 0.0)
    ∧ (∀ i : Fin 4, pipeline.DefaultInstanceParams.default.color i = 1.0) := by
  refine ⟨fun i j => rfl, fun i => ?_⟩
  fin_cases i <;> rfl

/-- Claim C10: `render` takes the `RenderList` by shared reference and
leaves its instance sequence unchanged: after a render step the list is
exactly what it was, two consecutive render steps log identical draw
sequences, and only an explicit `clear` empties the list. -/
theorem render_preserves_instance_list {n : Nat} (l : RenderList n)
    (log : List (List DrawCall)) (r : Resources n) (c : Context)
    (S : Surface) :
    ((FrameOp.render r c S).step (l, log)).1 = l
    ∧ ((FrameOp.render r c S).step ((FrameOp.render r c S).step (l, log))).2
        = log ++ [(l.render r c S).1, (l.render r c S).1]
    ∧ ((FrameOp.clear : FrameOp n).step (l, log)).1.instances = [] := by
  refine ⟨rfl, ?_, rfl⟩
  simp [FrameOp.step]

end Rendology
